import Mathlib

/-!
# Verification of the kien-music catalog cache server and client classification

Shallow embedding of the Go cache server (`src/server/main.go` and the server
variants in `src/unnamed/part_001`) and of the React client's track
classification loop (`src/unnamed/part_000`).

Modelling conventions:
* The upstream HTTP fetch is external I/O; its outcome is passed in as a value
  of `HttpOutcome` (for `fetchTracks`) or `FetchResult` (for the handlers).
* Wall-clock time is a `Nat` passed in where the Go code calls `time.Now()`.
* Mutex-protected critical sections are modelled as atomic steps of a trace
  semantics (`Event` / `execTrace`): the Go code swaps the whole snapshot while
  holding the write lock, and readers copy it while holding the read lock, so
  the observable interleavings are exactly the interleavings of these steps.
* HTTP handlers become pure functions from (method, body, fetch outcome, time,
  state) to an outcome record holding the response status, the number of
  refresh attempts made, and the post-state.
-/

namespace KienMusic

/-- One upstream media asset (`CloudinaryResource` in the Go sources): fields
`asset_id`, `public_id`, `format`, `type` of the JSON shape. -/
structure CloudinaryResource where
  asset_id : String
  public_id : String
  format : String
  typ : String
  deriving DecidableEq, Repr

/-- The upstream listing response (`CloudinaryResponse`): a sequence of
resources. -/
structure CloudinaryResponse where
  resources : List CloudinaryResource
  deriving DecidableEq, Repr

/-- The webhook notification payload of `src/unnamed/part_001`
(`CloudinaryNotification`): fields `public_id`, `resource_type`, `type`,
`notification_type`, `timestamp`. -/
structure CloudinaryNotification where
  public_id : String
  resource_type : String
  typ : String
  notification_type : String
  timestamp : Int
  deriving DecidableEq, Repr

/-- The error taxonomy of the spec's upstream fetcher (`FetchError`). In the
Go code all of these are plain `error` values; the constructor records which
source-level failure path produced it. -/
inductive FetchError where
  | network
  | timeout
  | decode
  deriving DecidableEq, Repr

/-- Outcome of one upstream fetch as seen by `updateCache`: either the decoded
response or an error. -/
inductive FetchResult where
  | ok (resp : CloudinaryResponse)
  | err (e : FetchError)
  deriving DecidableEq, Repr

/-- The server's shared mutable state: the global `trackCache` and
`lastFetchTime` of `main.go` (both guarded by RW mutexes in the source).
Go zero values give the initial state. -/
structure ServerState where
  trackCache : CloudinaryResponse
  lastFetchTime : Nat
  deriving DecidableEq, Repr

/-- Process-start state: `trackCache` is the zero `CloudinaryResponse`
(no resources) and `lastFetchTime` is the zero time. -/
def initialState : ServerState := ⟨⟨[]⟩, 0⟩

/-- `updateCache` of `main.go` (lines 127-148): fetch; on error return the
error leaving the state alone; on success swap in the whole new snapshot under
the write lock and stamp `lastFetchTime`. Returns (error?, post-state). -/
def updateCache (fetch : FetchResult) (now : Nat) (s : ServerState) :
    Option FetchError × ServerState :=
  match fetch with
  | .err e => (some e, s)
  | .ok tracks => (none, { trackCache := tracks, lastFetchTime := now })

/-! ## The upstream fetcher `fetchTracks` (`main.go` lines 76-124) -/

/-- The body of the upstream HTTP response as relevant to `json.Unmarshal`
into `CloudinaryResponse`: either it fails to decode, or it decodes to a
resource list. -/
inductive Body where
  | malformed
  | valid (resources : List CloudinaryResource)
  deriving DecidableEq, Repr

/-- Outcome of the outbound HTTP call in `fetchTracks`: `client.Do` fails
(transport error or the 10-second client timeout), reading the body fails, or
a response with some status code and body arrives. -/
inductive HttpOutcome where
  | transportError
  | timeout
  | readError
  | response (status : Nat) (body : Body)
  deriving DecidableEq, Repr

/-- `fetchTracks` of `main.go` (lines 76-124): build the request, perform it,
read the body, `json.Unmarshal` it. Each source error path returns an error;
otherwise the decoded response is returned. The source never inspects
`resp.StatusCode`: the `status` field of a response is ignored. -/
def fetchTracks (outcome : HttpOutcome) : Except FetchError CloudinaryResponse :=
  match outcome with
  | .transportError => .error .network
  | .timeout => .error .timeout
  | .readError => .error .network
  | .response _status body =>
    match body with
    | .malformed => .error .decode
    | .valid rs => .ok ⟨rs⟩

/-- Whether an HTTP status code is in the 2xx success class. -/
def is2xx (status : Nat) : Bool := 200 ≤ status && status < 300

/-! ## HTTP handlers -/

/-- Result of one request to `/api/tracks`: response status, response body
(the JSON-encoded snapshot) when one is written, and the post-state. -/
structure TracksOutcome where
  status : Nat
  body : Option CloudinaryResponse
  state : ServerState
  deriving DecidableEq, Repr

/-- The `/api/tracks` handler (`main.go` lines 190-202): non-GET methods get
405; otherwise the current snapshot is copied under the read lock and encoded.
The handler never mutates the cache. -/
def tracksHandler (method : String) (s : ServerState) : TracksOutcome :=
  if method ≠ "GET" then ⟨405, none, s⟩
  else ⟨200, some s.trackCache, s⟩

/-- Health endpoint body (`main.go` lines 256-264): `status`, `last_fetch`,
`cached_tracks`. -/
structure HealthResponse where
  status : String
  last_fetch : Nat
  cached_tracks : Nat
  deriving DecidableEq, Repr

/-- The `/health` handler (`main.go` lines 251-268): always writes a 200 with
`status = "healthy"`, the last fetch time, and the cached resource count. -/
def healthHandler (s : ServerState) : Nat × HealthResponse :=
  (200, ⟨"healthy", s.lastFetchTime, s.trackCache.resources.length⟩)

/-- The inbound webhook body as the handler sees it: reading the body can
fail (`io.ReadAll` error), `json.Unmarshal` can fail, or a notification is
parsed. -/
inductive BodyParse where
  | readError
  | malformed
  | parsed (n : CloudinaryNotification)
  deriving DecidableEq, Repr

/-- Result of one request to `/api/webhook`: response status, how many refresh
attempts (calls to `updateCache`) the request made, and the post-state. -/
structure WebhookOutcome where
  status : Nat
  refreshAttempts : Nat
  state : ServerState
  deriving DecidableEq, Repr

/-- The unconditional `/api/webhook` handler of `main.go` (lines 211-248):
405 on non-POST, 400 if the body cannot be read, otherwise always refresh:
500 if the refresh fails, 200 if it succeeds. The body content is never
parsed. -/
def webhookHandlerUnconditional (method : String) (body : BodyParse)
    (fetch : FetchResult) (now : Nat) (s : ServerState) : WebhookOutcome :=
  if method ≠ "POST" then ⟨405, 0, s⟩
  else match body with
  | .readError => ⟨400, 0, s⟩
  | _ =>
    match updateCache fetch now s with
    | (some _, s') => ⟨500, 1, s'⟩
    | (none, s') => ⟨200, 1, s'⟩

/-- The parsing `/api/webhook` handler of `main.go` (lines 506-558): 405 on
non-POST, 400 if the body cannot be read or is not valid JSON, otherwise
always refresh regardless of the notification's content: 500 if the refresh
fails, 200 if it succeeds. -/
def webhookHandlerParsing (method : String) (body : BodyParse)
    (fetch : FetchResult) (now : Nat) (s : ServerState) : WebhookOutcome :=
  if method ≠ "POST" then ⟨405, 0, s⟩
  else match body with
  | .readError => ⟨400, 0, s⟩
  | .malformed => ⟨400, 0, s⟩
  | .parsed _ =>
    match updateCache fetch now s with
    | (some _, s') => ⟨500, 1, s'⟩
    | (none, s') => ⟨200, 1, s'⟩

/-- The relevance test of the filtering webhook variant
(`src/unnamed/part_001` lines 176-178): refresh only for
`resource_type = "video"`, `type = "upload"`,
`notification_type = "resource_created"`. -/
def isRelevant (n : CloudinaryNotification) : Bool :=
  n.resource_type == "video" && n.typ == "upload"
    && n.notification_type == "resource_created"

/-- The filtering `/api/webhook` handler of `src/unnamed/part_001` (lines
141-193): 405 on non-POST, 400 on unreadable body or invalid JSON; a parsed
notification triggers a refresh only when `isRelevant` holds (500 if that
refresh fails, else 200); an irrelevant notification is ignored and answered
200. -/
def webhookHandlerFiltered (method : String) (body : BodyParse)
    (fetch : FetchResult) (now : Nat) (s : ServerState) : WebhookOutcome :=
  if method ≠ "POST" then ⟨405, 0, s⟩
  else match body with
  | .readError => ⟨400, 0, s⟩
  | .malformed => ⟨400, 0, s⟩
  | .parsed n =>
    if isRelevant n then
      match updateCache fetch now s with
      | (some _, s') => ⟨500, 1, s'⟩
      | (none, s') => ⟨200, 1, s'⟩
    else ⟨200, 0, s⟩

/-! ## Trace semantics for the shared cache

Each event is one critical section (or one whole request whose only state
interaction is one critical section): a `refresh` is one completed
`updateCache` call whose fetch produced `fetch`, a `readTracks` is one
`/api/tracks` GET copying the snapshot under the read lock. Arbitrary event
orders model arbitrary interleavings of concurrent requests at lock
granularity. -/

/-- One atomic step of the server at lock granularity. -/
inductive Event where
  | refresh (fetch : FetchResult) (now : Nat)
  | readTracks
  deriving DecidableEq, Repr

/-- One step of the trace semantics: the post-state of an event. -/
def stepState (s : ServerState) : Event → ServerState
  | .refresh fetch now => (updateCache fetch now s).2
  | .readTracks => s

/-- Run a trace of events from a state, returning the final state. -/
def execTrace (tr : List Event) (s : ServerState) : ServerState :=
  tr.foldl stepState s

/-- The snapshots returned by the `readTracks` events of a trace, in order. -/
def readsOf : List Event → ServerState → List CloudinaryResponse
  | [], _ => []
  | .readTracks :: tr, s => s.trackCache :: readsOf tr s
  | .refresh fetch now :: tr, s => readsOf tr (stepState s (.refresh fetch now))

/-- A snapshot was wholesale-installed in a trace: it is the payload of some
successful refresh event of the trace. -/
def installedIn (resp : CloudinaryResponse) (tr : List Event) : Prop :=
  ∃ now, Event.refresh (.ok resp) now ∈ tr

/-! ## Client-side classification (`src/unnamed/part_000` lines 408-437) -/

/-- A client-side track record as built in the classification loop: `id` from
`asset_id`, the extracted `filename`, and the direct audio URL. -/
structure Track where
  id : String
  filename : String
  audio : String
  deriving DecidableEq, Repr

/-- The JavaScript `split('/')` on a character list: splits at every `/`,
keeping empty segments, and never returns an empty list (splitting the empty
string gives one empty segment, as in JavaScript). -/
def jsSplitSlash : List Char → List (List Char)
  | [] => [[]]
  | c :: rest =>
    match jsSplitSlash rest with
    | [] => [[]]
    | s :: ss => if c = '/' then [] :: s :: ss else (c :: s) :: ss

/-- `resource.public_id.split('/').pop()` of the source: the last
slash-separated segment of the public id (`pop` takes the last element of the
split, which always exists). -/
def jsFilename (publicId : String) : String :=
  String.mk ((jsSplitSlash publicId.toList).reverse.headD [])

/-- The JavaScript `startsWith` test on strings, via their character lists. -/
def jsStartsWith (s pre : String) : Bool :=
  pre.toList.isPrefixOf s.toList

/-- The regular-expression test `/^\d{4}-\d{2}-\d{2}/.test(filename)` of the
source: the string starts with four digits, a hyphen, two digits, a hyphen,
two digits. -/
def hasLeadingDate (s : String) : Bool :=
  match s.toList with
  | a :: b :: c :: d :: h1 :: e :: f :: h2 :: g :: i :: _ =>
    a.isDigit && b.isDigit && c.isDigit && d.isDigit && h1 == '-'
      && e.isDigit && f.isDigit && h2 == '-' && g.isDigit && i.isDigit
  | _ => false

/-- The fixed Cloudinary cloud name of the client
(`CLOUDINARY_CLOUD_NAME`). -/
def cloudinaryCloudName : String := "drenighdk"

/-- The track object built for a resource in the classification loop. -/
def mkTrack (r : CloudinaryResource) : Track :=
  { id := r.asset_id
    filename := jsFilename r.public_id
    audio := "https://res.cloudinary.com/" ++ cloudinaryCloudName
      ++ "/video/upload/" ++ r.public_id ++ ".mp3" }

/-- The three fixed client categories. -/
inductive Category where
  | remakes
  | dailySessions
  | originals
  deriving DecidableEq, Repr

/-- The category a resource is placed in, following the source's if-chain:
`filename.startsWith('cover-')` wins, then the leading-date test, else
originals. -/
def categoryOf (r : CloudinaryResource) : Category :=
  if jsStartsWith (jsFilename r.public_id) "cover-" then .remakes
  else if hasLeadingDate (jsFilename r.public_id) then .dailySessions
  else .originals

/-- The three category lists built by the classification loop, before the
per-category sorts. -/
structure Classified where
  dailySessions : List Track
  remakes : List Track
  originals : List Track
  deriving DecidableEq, Repr

/-- The `resources.forEach` classification loop: each resource's track is
pushed onto exactly one of the three lists, chosen by the source's if-chain
(`cover-` first, then the leading-date test, else originals). -/
def classifyResources : List CloudinaryResource → Classified
  | [] => ⟨[], [], []⟩
  | r :: rest =>
    if jsStartsWith (jsFilename r.public_id) "cover-" then
      { classifyResources rest with
        remakes := mkTrack r :: (classifyResources rest).remakes }
    else if hasLeadingDate (jsFilename r.public_id) then
      { classifyResources rest with
        dailySessions := mkTrack r :: (classifyResources rest).dailySessions }
    else
      { classifyResources rest with
        originals := mkTrack r :: (classifyResources rest).originals }

/-- A trace contains no successful refresh event (decidable form). -/
def noSuccessfulRefresh (tr : List Event) : Bool :=
  tr.all fun e =>
    match e with
    | .refresh (.ok _) _ => false
    | _ => true

/-! ## Sample data used by witnesses and counterexamples -/

/-- A concrete upstream resource. -/
def sampleResource : CloudinaryResource :=
  ⟨"asset1", "my-music/2024-01-15.mp3", "mp3", "upload"⟩

/-- A concrete upstream listing of one resource. -/
def sampleResponse : CloudinaryResponse := ⟨[sampleResource]⟩

/-- A concrete notification matching the filtering variant's relevance test. -/
def sampleNotification : CloudinaryNotification :=
  ⟨"my-music/new-track", "video", "upload", "resource_created", 0⟩

/-- A concrete notification failing the filtering variant's relevance test. -/
def irrelevantNotification : CloudinaryNotification :=
  ⟨"my-music/old-track", "video", "upload", "resource_deleted", 0⟩

/-! ## Theorems -/

/-- C1: when the upstream fetch fails, `updateCache` returns the error and the
post-state equals the pre-state, so the cached snapshot (and everything else in
the state) is untouched — no partial update of the resource list. -/
theorem updateCache_failure_preserves_snapshot (e : FetchError) (now : Nat)
    (s : ServerState) :
    updateCache (.err e) now s = (some e, s) := rfl

/-- C10: a failed refresh leaves `lastFetchTime` unchanged as well as the
snapshot, so `/health` still reports the last successful refresh's
`last_fetch` value after the failed attempt. -/
theorem updateCache_failure_preserves_lastFetch (e : FetchError) (now : Nat)
    (s : ServerState) :
    (updateCache (.err e) now s).2.lastFetchTime = s.lastFetchTime ∧
    healthHandler (updateCache (.err e) now s).2 = healthHandler s :=
  ⟨rfl, rfl⟩

/-- C3 counterexample: `fetchTracks` returns the decoded sequence for an HTTP
500 response whose body is valid JSON of the expected shape — the status code
is never inspected — refuting "returns the decoded resource sequence exactly
when the upstream HTTP call returns a 2xx status". -/
theorem fetchTracks_accepts_non2xx :
    fetchTracks (.response 500 (.valid [sampleResource]))
      = .ok ⟨[sampleResource]⟩ ∧ is2xx 500 = false :=
  ⟨rfl, rfl⟩

/-- C3 amended: `fetchTracks` returns the decoded sequence whenever the body
decodes to the expected shape, regardless of the HTTP status code (which the
source never checks); it returns an error on transport failure, on the
10-second client timeout, on a body-read failure, and on malformed JSON. -/
theorem fetchTracks_contract (st : Nat) (rs : List CloudinaryResource) :
    fetchTracks (.response st (.valid rs)) = .ok ⟨rs⟩ ∧
    fetchTracks .transportError = .error .network ∧
    fetchTracks .timeout = .error .timeout ∧
    fetchTracks .readError = .error .network ∧
    fetchTracks (.response st .malformed) = .error .decode :=
  ⟨rfl, rfl, rfl, rfl, rfl⟩

/-- C8: after a successful refresh installing `r`, `/health` responds 200 with
`cached_tracks` equal to the number of installed resources and a `last_fetch`
no older than the refresh's install time (it equals it). -/
theorem health_after_successful_refresh (r : CloudinaryResponse) (now : Nat)
    (s : ServerState) :
    (healthHandler (updateCache (.ok r) now s).2).1 = 200 ∧
    (healthHandler (updateCache (.ok r) now s).2).2.cached_tracks
      = r.resources.length ∧
    now ≤ (healthHandler (updateCache (.ok r) now s).2).2.last_fetch :=
  ⟨rfl, rfl, Nat.le_refl now⟩

/-- Every snapshot a read returns is the starting state's snapshot or was
wholesale-installed by a successful refresh of the trace. -/
theorem readsOf_installed (tr : List Event) (s : ServerState) :
    ∀ resp ∈ readsOf tr s, resp = s.trackCache ∨ installedIn resp tr := by
  induction tr generalizing s with
  | nil =>
    intro resp h
    simp only [readsOf] at h
    exact absurd h (List.not_mem_nil resp)
  | cons e tr ih =>
    intro resp h
    cases e with
    | readTracks =>
      simp only [readsOf] at h
      rcases List.mem_cons.mp h with h1 | h2
      · exact Or.inl h1
      · rcases ih s resp h2 with h3 | ⟨now, hmem⟩
        · exact Or.inl h3
        · exact Or.inr ⟨now, List.mem_cons_of_mem _ hmem⟩
    | refresh fetch now =>
      simp only [readsOf] at h
      rcases ih _ resp h with h3 | ⟨now', hmem⟩
      · cases fetch with
        | err e => exact Or.inl h3
        | ok r => exact Or.inr ⟨now, by subst h3; exact List.mem_cons_self _ _⟩
      · exact Or.inr ⟨now', List.mem_cons_of_mem _ hmem⟩

/-- C2: for any trace of refreshes and reads from process start, every
snapshot returned by a `/api/tracks` read is either the initial empty
snapshot or the payload of some completed successful refresh of the trace:
the snapshot is swapped wholesale in one critical section, so a read never
observes a mix of old and new entries. -/
theorem reads_never_observe_partial_snapshot (tr : List Event)
    (resp : CloudinaryResponse) (h : resp ∈ readsOf tr initialState) :
    resp = initialState.trackCache ∨ installedIn resp tr :=
  readsOf_installed tr initialState resp h

/-- C2 witness: a concrete trace of one successful refresh followed by one
read, whose read observes the installed snapshot. -/
theorem reads_never_observe_partial_snapshot_witness :
    sampleResponse = initialState.trackCache ∨
      installedIn sampleResponse
        [.refresh (.ok sampleResponse) 5, .readTracks] :=
  reads_never_observe_partial_snapshot
    [.refresh (.ok sampleResponse) 5, .readTracks] sampleResponse (by decide)

/-- Running a trace without a successful refresh leaves the state exactly at
its starting value. -/
theorem execTrace_no_success (tr : List Event) (s : ServerState)
    (h : noSuccessfulRefresh tr = true) : execTrace tr s = s := by
  induction tr generalizing s with
  | nil => rfl
  | cons e tr ih =>
    simp only [noSuccessfulRefresh, List.all_cons, Bool.and_eq_true] at h
    cases e with
    | readTracks => exact ih s h.2
    | refresh fetch now =>
      cases fetch with
      | ok r => exact absurd h.1 (by simp)
      | err e => exact ih s h.2

/-- C7: a GET to `/api/tracks` after any trace containing no successful
refresh (in particular, at process start or after only failed refreshes)
responds 200 with an empty resource list, not an error. -/
theorem tracks_empty_before_first_success (tr : List Event)
    (h : noSuccessfulRefresh tr = true) :
    (tracksHandler "GET" (execTrace tr initialState)).status = 200 ∧
    (tracksHandler "GET" (execTrace tr initialState)).body
      = some ⟨[]⟩ := by
  rw [execTrace_no_success tr initialState h]
  exact ⟨rfl, rfl⟩

/-- C7 witness: after one failed refresh, the tracks endpoint returns 200 and
the empty list. -/
theorem tracks_empty_before_first_success_witness :
    noSuccessfulRefresh [.refresh (.err .network) 3] = true ∧
    ((tracksHandler "GET"
        (execTrace [.refresh (.err .network) 3] initialState)).status = 200 ∧
      (tracksHandler "GET"
        (execTrace [.refresh (.err .network) 3] initialState)).body
        = some ⟨[]⟩) :=
  ⟨by decide, tracks_empty_before_first_success [.refresh (.err .network) 3]
    (by decide)⟩

/-- C4: in the filtering variant, a POST whose body parses as a notification
triggers exactly one refresh attempt when the notification has
`resource_type = "video"`, `type = "upload"` and
`notification_type = "resource_created"`, and zero refresh attempts for any
other parsed notification; in both cases (the triggered refresh succeeding)
the response status is 200. -/
theorem webhook_filtered_refresh_policy (n : CloudinaryNotification)
    (r : CloudinaryResponse) (now : Nat) (s : ServerState) :
    (webhookHandlerFiltered "POST" (.parsed n) (.ok r) now s).refreshAttempts
      = (if isRelevant n then 1 else 0) ∧
    (webhookHandlerFiltered "POST" (.parsed n) (.ok r) now s).status = 200 := by
  unfold webhookHandlerFiltered updateCache
  cases h : isRelevant n <;> simp [h]

/-- C5 counterexample: a request to `/api/webhook` with method GET is answered
405 by both `main.go` webhook variants, not the claimed 400. -/
theorem webhook_wrong_method_is_405_not_400 :
    (webhookHandlerUnconditional "GET" (.parsed sampleNotification)
      (.ok sampleResponse) 0 initialState).status = 405 ∧
    (webhookHandlerParsing "GET" (.parsed sampleNotification)
      (.ok sampleResponse) 0 initialState).status = 405 ∧
    (405 : Nat) ≠ 400 := by
  decide

/-- C5 amended: both `main.go` webhook variants respond 405 (not 400) on a
non-POST method; 400 when the body cannot be read, and — in the parsing
variant only — when the body is not valid JSON (the unconditional variant
never parses and refreshes even on a malformed body, answering 200 when that
refresh succeeds); 200 when the triggered refresh succeeds; 500 when the
triggered refresh fails. -/
theorem webhook_status_contract (m : String) (hm : m ≠ "POST")
    (b : BodyParse) (n : CloudinaryNotification) (r : CloudinaryResponse)
    (e : FetchError) (now : Nat) (s : ServerState) :
    (webhookHandlerUnconditional m b (.ok r) now s).status = 405 ∧
    (webhookHandlerParsing m b (.ok r) now s).status = 405 ∧
    (webhookHandlerUnconditional "POST" .readError (.ok r) now s).status
      = 400 ∧
    (webhookHandlerParsing "POST" .readError (.ok r) now s).status = 400 ∧
    (webhookHandlerParsing "POST" .malformed (.ok r) now s).status = 400 ∧
    (webhookHandlerUnconditional "POST" .malformed (.ok r) now s).status
      = 200 ∧
    (webhookHandlerUnconditional "POST" (.parsed n) (.ok r) now s).status
      = 200 ∧
    (webhookHandlerParsing "POST" (.parsed n) (.ok r) now s).status = 200 ∧
    (webhookHandlerUnconditional "POST" (.parsed n) (.err e) now s).status
      = 500 ∧
    (webhookHandlerParsing "POST" (.parsed n) (.err e) now s).status = 500 := by
  unfold webhookHandlerUnconditional webhookHandlerParsing updateCache
  simp [hm]

/-- C5 witness: the amended contract instantiated at method GET. -/
theorem webhook_status_contract_witness :
    (webhookHandlerUnconditional "GET" .readError (.ok sampleResponse) 0
      initialState).status = 405 :=
  (webhook_status_contract "GET" (by decide) .readError sampleNotification
    sampleResponse .network 0 initialState).1

/-- C6: a non-GET request to `/api/tracks` and a non-POST request to
`/api/webhook` (in all three webhook variants) are answered 405, make no
refresh attempt, and leave the server state unchanged. -/
theorem wrong_method_gets_405_and_no_state_change (mg mp : String)
    (hg : mg ≠ "GET") (hp : mp ≠ "POST") (b : BodyParse)
    (fetch : FetchResult) (now : Nat) (s : ServerState) :
    (tracksHandler mg s).status = 405 ∧ (tracksHandler mg s).state = s ∧
    (webhookHandlerUnconditional mp b fetch now s).status = 405 ∧
    (webhookHandlerUnconditional mp b fetch now s).state = s ∧
    (webhookHandlerUnconditional mp b fetch now s).refreshAttempts = 0 ∧
    (webhookHandlerParsing mp b fetch now s).status = 405 ∧
    (webhookHandlerParsing mp b fetch now s).state = s ∧
    (webhookHandlerParsing mp b fetch now s).refreshAttempts = 0 ∧
    (webhookHandlerFiltered mp b fetch now s).status = 405 ∧
    (webhookHandlerFiltered mp b fetch now s).state = s ∧
    (webhookHandlerFiltered mp b fetch now s).refreshAttempts = 0 := by
  unfold tracksHandler webhookHandlerUnconditional webhookHandlerParsing
    webhookHandlerFiltered
  simp [hg, hp]

/-- C6 witness: the theorem instantiated at POST to tracks and GET to the
webhook. -/
theorem wrong_method_gets_405_and_no_state_change_witness :
    (tracksHandler "POST" initialState).status = 405 :=
  (wrong_method_gets_405_and_no_state_change "POST" "GET" (by decide)
    (by decide) .readError (.ok sampleResponse) 0 initialState).1

/-- C9: the classification loop is a total partition: each of the three lists
it builds is exactly the tracks of the resources whose `categoryOf` is that
category (so every resource is placed in exactly one category, decided by the
last path segment of its `public_id`), and the `cover-` test takes precedence
over the leading-date test. -/
theorem classification_total_partition (rs : List CloudinaryResource) :
    ((classifyResources rs).remakes
        = (rs.filter fun r => decide (categoryOf r = .remakes)).map mkTrack ∧
      (classifyResources rs).dailySessions
        = (rs.filter fun r =>
            decide (categoryOf r = .dailySessions)).map mkTrack ∧
      (classifyResources rs).originals
        = (rs.filter fun r =>
            decide (categoryOf r = .originals)).map mkTrack) ∧
    ∀ r : CloudinaryResource,
      jsStartsWith (jsFilename r.public_id) "cover-" = true →
        categoryOf r = .remakes := by
  constructor
  · induction rs with
    | nil => exact ⟨rfl, rfl, rfl⟩
    | cons r rest ih =>
      obtain ⟨ih1, ih2, ih3⟩ := ih
      by_cases h1 : jsStartsWith (jsFilename r.public_id) "cover-" = true
      · simp [classifyResources, categoryOf, h1, List.filter_cons, ih1, ih2,
          ih3]
      · by_cases h2 : hasLeadingDate (jsFilename r.public_id) = true
        · simp [classifyResources, categoryOf, h1, h2, List.filter_cons, ih1,
            ih2, ih3]
        · simp [classifyResources, categoryOf, h1, h2, List.filter_cons, ih1,
            ih2, ih3]
  · intro r h
    unfold categoryOf
    simp [h]

/-- C9 witness: the partition equations evaluated on a concrete resource
list covering all three categories. -/
theorem classification_total_partition_witness :
    (classifyResources [⟨"a1", "my-music/cover-song", "mp3", "upload"⟩,
        ⟨"a2", "my-music/2024-01-15", "mp3", "upload"⟩,
        ⟨"a3", "my-music/freestyle", "mp3", "upload"⟩]).remakes
      = ([⟨"a1", "my-music/cover-song", "mp3", "upload"⟩,
          ⟨"a2", "my-music/2024-01-15", "mp3", "upload"⟩,
          ⟨"a3", "my-music/freestyle", "mp3", "upload"⟩].filter
            fun r => decide (categoryOf r = .remakes)).map mkTrack :=
  (classification_total_partition _).1.1

end KienMusic
